import Mathlib

/-!
Verification of the billing-cycle calculator and report aggregation of the
accounting-system repository (`src/handlers/account_book_reports.rs`,
`src/handlers/account_book.rs`).

The embedding models `chrono::NaiveDate` as a record of an unbounded year,
a month and a day; every `Option` `unwrap` of the Rust code is mirrored by
an `Option` bind, so a `none` result of an embedded function corresponds to
a panic of the original code.  Monetary `rust_decimal::Decimal` values are
modelled as exact rationals.
-/

namespace AccountingSystem

/-- Model of `chrono::NaiveDate` (proleptic Gregorian calendar, unbounded year). -/
structure Date where
  year : Int
  month : Nat
  day : Nat
deriving DecidableEq, Repr

/-- Gregorian leap-year rule, as used by `chrono`. -/
def isLeapYear (y : Int) : Bool :=
  y % 4 == 0 && (y % 100 != 0 || y % 400 == 0)

/-- Number of days of month `m` of year `y` (for `m` between 1 and 12). -/
def daysInMonth (y : Int) (m : Nat) : Nat :=
  if m = 2 then (if isLeapYear y then 29 else 28)
  else if m = 4 ∨ m = 6 ∨ m = 9 ∨ m = 11 then 30
  else 31

/-- A `Date` value that denotes an actual calendar date. -/
def Date.Valid (d : Date) : Prop :=
  1 ≤ d.month ∧ d.month ≤ 12 ∧ 1 ≤ d.day ∧ d.day ≤ daysInMonth d.year d.month

instance (d : Date) : Decidable d.Valid := by
  unfold Date.Valid; infer_instance

/-- Model of `NaiveDate::from_ymd_opt`. -/
def fromYmdOpt (y : Int) (m d : Nat) : Option Date :=
  if 1 ≤ m ∧ m ≤ 12 ∧ 1 ≤ d ∧ d ≤ daysInMonth y m then some ⟨y, m, d⟩ else none

/-- Model of `NaiveDate::with_day`. -/
def Date.withDay (dt : Date) (d : Nat) : Option Date :=
  if 1 ≤ d ∧ d ≤ daysInMonth dt.year dt.month then some ⟨dt.year, dt.month, d⟩ else none

/-- Model of `date - chrono::Duration::days(1)`. -/
def Date.pred : Date → Date
  | ⟨y, m, day⟩ =>
    if 2 ≤ day then ⟨y, m, day - 1⟩
    else if 2 ≤ m then ⟨y, m - 1, daysInMonth y (m - 1)⟩
    else ⟨y - 1, 12, 31⟩

/-- Model of `date + chrono::Duration::days(1)`. -/
def Date.succ : Date → Date
  | ⟨y, m, day⟩ =>
    if day < daysInMonth y m then ⟨y, m, day + 1⟩
    else if m < 12 then ⟨y, m + 1, 1⟩
    else ⟨y + 1, 1, 1⟩

/-- Model of the `Ord`/`PartialOrd` comparison of `NaiveDate` (chronological,
i.e. lexicographic on year, month, day). -/
def Date.ltb (a b : Date) : Bool :=
  decide (a.year < b.year ∨ (a.year = b.year ∧
    (a.month < b.month ∨ (a.month = b.month ∧ a.day < b.day))))

/-- `a <= b` on dates. -/
def Date.leb (a b : Date) : Bool :=
  a.ltb b || a == b

/-- Model of the Rust cast `cycle_start_day as u32` (two's-complement wrap). -/
def u32cast (i : Int) : Nat :=
  (i % (4294967296 : Int)).toNat

/-- Embedding of the repeated Rust expression
`NaiveDate::from_ymd_opt(d.year(), d.month() + 1, 1)
   .unwrap_or_else(|| NaiveDate::from_ymd_opt(d.year() + 1, 1, 1).unwrap())
 - chrono::Duration::days(1)`
(`account_book_reports.rs` lines 383–388 and 459–464). -/
def lastDayOfMonthExpr (td : Date) : Option Date :=
  (match fromYmdOpt td.year (td.month + 1) 1 with
   | some d => some d
   | none => fromYmdOpt (td.year + 1) 1 1).map Date.pred

/-- Embedding of the clamped "start day in this month" block that opens both
`calculate_current_cycle_dates` (lines 379–395) and `calculate_cycle_period`
(lines 455–471): `today.with_day(start_day)` with a fallback that clamps to
the month's last day when `start_day` exceeds it, and otherwise unwraps
`with_day` again. -/
def clampedStartInMonth (td : Date) (start_day : Nat) : Option Date :=
  match td.withDay start_day with
  | some date => some date
  | none => do
    let last_day_of_month ← lastDayOfMonthExpr td
    if last_day_of_month.day < start_day then
      pure last_day_of_month
    else
      td.withDay start_day

/-- Embedding of the "prev_month_start" expression of
`calculate_current_cycle_dates` (lines 400–404): the first day of the month
preceding the month of `current_cycle_start`. -/
def prevMonthStartExpr (d : Date) : Option Date :=
  if d.month = 1 then
    fromYmdOpt (d.year - 1) 12 1
  else
    fromYmdOpt d.year (d.month - 1) 1

/-- Embedding of the "prev_cycle_start" block (lines 406–415 and 482–491):
day `start_day` of the previous month when it exists; otherwise the code
falls back to `current_cycle_start - 1 day`, which it calls
`last_day_of_prev_month` even though it lies in the current month. -/
def prevCycleStartBlock (prev_month_start current_cycle_start : Date)
    (start_day : Nat) : Option Date :=
  match prev_month_start.withDay start_day with
  | some date => some date
  | none =>
    let last_day_of_prev_month := current_cycle_start.pred
    if last_day_of_prev_month.day < start_day then
      some last_day_of_prev_month
    else
      prev_month_start.withDay start_day

/-- Embedding of the "next_month_start" expression (lines 421–425). -/
def nextMonthStartExpr (d : Date) : Option Date :=
  if d.month = 12 then
    fromYmdOpt (d.year + 1) 1 1
  else
    fromYmdOpt d.year (d.month + 1) 1

/-- Embedding of the "next_cycle_start" block (lines 427–441): day
`start_day` of the next month, clamped to that month's last day. -/
def nextCycleStartBlock (next_month_start : Date) (start_day : Nat) : Option Date :=
  match next_month_start.withDay start_day with
  | some date => some date
  | none => do
    let first_after_next ←
      if next_month_start.month = 12 then
        fromYmdOpt (next_month_start.year + 1) 1 1
      else
        fromYmdOpt next_month_start.year (next_month_start.month + 1) 1
    let last_day_of_next_month := first_after_next.pred
    if last_day_of_next_month.day < start_day then
      some last_day_of_next_month
    else
      next_month_start.withDay start_day

/-- Embedding of `calculate_current_cycle_dates`
(`account_book_reports.rs` lines 375–448), assembled from the block
definitions above.  A `none` result models a panic. -/
def calculate_current_cycle_dates (today : Date) (cycle_start_day : Int) :
    Option (Date × Date) := do
  let start_day := u32cast cycle_start_day
  let current_cycle_start ← clampedStartInMonth today start_day
  if today.ltb current_cycle_start then
    -- 使用上个月的周期
    let prev_month_start ← prevMonthStartExpr current_cycle_start
    let prev_cycle_start ← prevCycleStartBlock prev_month_start current_cycle_start start_day
    let prev_cycle_end := current_cycle_start.pred
    pure (prev_cycle_start, prev_cycle_end)
  else
    -- 使用当前月的周期
    let next_month_start ← nextMonthStartExpr current_cycle_start
    let next_cycle_start ← nextCycleStartBlock next_month_start start_day
    let current_cycle_end := next_cycle_start.pred
    pure (current_cycle_start, current_cycle_end)

/-- `{:02}` formatting of the month. -/
def pad2 (n : Nat) : String :=
  if n < 10 then "0" ++ toString n else toString n

/-- The period label built at the end of `calculate_cycle_period` (line 497):
`format!("{}-{:02} ({}日起)", cycle_start.year(), cycle_start.month(), cycle_start_day)`. -/
def periodKeyString (cycle_start : Date) (cycle_start_day : Int) : String :=
  toString cycle_start.year ++ "-" ++ pad2 cycle_start.month ++
    " (" ++ toString cycle_start_day ++ "日起)"

/-- Embedding of the cycle-start resolution of `calculate_cycle_period`
(lines 474–494); in that function the previous month is computed from
`transaction_date` itself (whose year/month equal those of
`current_month_start`). -/
def cycleStartResolve (transaction_date current_month_start : Date)
    (start_day : Nat) : Option Date :=
  if transaction_date.ltb current_month_start then do
    -- 计算上个月的起始日
    let prev_month ← prevMonthStartExpr transaction_date
    prevCycleStartBlock prev_month current_month_start start_day
  else
    some current_month_start

/-- Embedding of `calculate_cycle_period`
(`account_book_reports.rs` lines 451–498).  A `none` result models a panic. -/
def calculate_cycle_period (transaction_date : Date) (cycle_start_day : Int) :
    Option String := do
  let start_day := u32cast cycle_start_day
  let current_month_start ← clampedStartInMonth transaction_date start_day
  let cycle_start ← cycleStartResolve transaction_date current_month_start start_day
  pure (periodKeyString cycle_start cycle_start_day)

/-! ### Derived (spec-level) descriptions of the cycle computation

The following definitions are not part of the embedding; they are closed
forms of what the embedded functions compute, proved equal below. -/

/-- The date of month `m` of year `y` at day `sd`, clamped to the month length. -/
def clampDay (y : Int) (m : Nat) (sd : Nat) : Date :=
  ⟨y, m, min sd (daysInMonth y m)⟩

/-- Year/month of the previous calendar month. -/
def prevYM (y : Int) (m : Nat) : Int × Nat :=
  if m = 1 then (y - 1, 12) else (y, m - 1)

/-- Year/month of the next calendar month. -/
def nextYM (y : Int) (m : Nat) : Int × Nat :=
  if m = 12 then (y + 1, 1) else (y, m + 1)

/-- What the code's "previous cycle start" block computes for a reference
date in month `(y, m)`: day `sd` of the previous month when that month has
such a day, and otherwise — this is the slip — the day before the clamped
start of the *current* month (not the last day of the previous month). -/
def prevCycleStartCode (y : Int) (m : Nat) (sd : Nat) : Date :=
  if sd ≤ daysInMonth (prevYM y m).1 (prevYM y m).2 then
    ⟨(prevYM y m).1, (prevYM y m).2, sd⟩
  else
    (clampDay y m sd).pred

/-- Closed form of `calculate_current_cycle_dates`. -/
def cycleBoundsOf (td : Date) (sd : Nat) : Date × Date :=
  let cs := clampDay td.year td.month sd
  if td.ltb cs then
    (prevCycleStartCode td.year td.month sd, cs.pred)
  else
    (cs, (clampDay (nextYM td.year td.month).1 (nextYM td.year td.month).2 sd).pred)

/-- Closed form of the cycle-start date used by `calculate_cycle_period`. -/
def cycleStartOf (td : Date) (sd : Nat) : Date :=
  let cs := clampDay td.year td.month sd
  if td.ltb cs then prevCycleStartCode td.year td.month sd else cs

/-! ### Basic calendar lemmas -/

theorem daysInMonth_ge (y : Int) (m : Nat) : 28 ≤ daysInMonth y m := by
  unfold daysInMonth
  split
  · split <;> omega
  · split <;> omega

theorem daysInMonth_le (y : Int) (m : Nat) : daysInMonth y m ≤ 31 := by
  unfold daysInMonth
  split
  · split <;> omega
  · split <;> omega

theorem daysInMonth_one (y : Int) : daysInMonth y 1 = 31 := by
  simp [daysInMonth]

theorem daysInMonth_twelve (y : Int) : daysInMonth y 12 = 31 := by
  simp [daysInMonth]

@[simp] theorem clampDay_year (y : Int) (m sd : Nat) : (clampDay y m sd).year = y := rfl

@[simp] theorem clampDay_month (y : Int) (m sd : Nat) : (clampDay y m sd).month = m := rfl

@[simp] theorem clampDay_day (y : Int) (m sd : Nat) :
    (clampDay y m sd).day = min sd (daysInMonth y m) := rfl

theorem clampDay_valid (y : Int) (m sd : Nat)
    (hm1 : 1 ≤ m) (hm12 : m ≤ 12) (hsd : 1 ≤ sd) : (clampDay y m sd).Valid := by
  have h := daysInMonth_ge y m
  exact ⟨hm1, hm12, by simp; omega, by simp⟩

theorem Date.pred_mk_of_two_le (y : Int) (m day : Nat) (h : 2 ≤ day) :
    Date.pred ⟨y, m, day⟩ = ⟨y, m, day - 1⟩ := by
  simp only [Date.pred]
  rw [if_pos h]

theorem Date.pred_mk_month (y : Int) (m : Nat) (h2 : 2 ≤ m) :
    Date.pred ⟨y, m, 1⟩ = ⟨y, m - 1, daysInMonth y (m - 1)⟩ := by
  simp only [Date.pred]
  rw [if_neg (by omega), if_pos h2]

theorem Date.pred_mk_jan (y : Int) : Date.pred ⟨y, 1, 1⟩ = ⟨y - 1, 12, 31⟩ := by
  simp only [Date.pred]
  rw [if_neg (by omega), if_neg (by omega)]

theorem Date.succ_mk_of_lt (y : Int) (m day : Nat) (h : day < daysInMonth y m) :
    Date.succ ⟨y, m, day⟩ = ⟨y, m, day + 1⟩ := by
  simp only [Date.succ]
  rw [if_pos h]

theorem Date.succ_mk_month (y : Int) (m day : Nat) (h : ¬ day < daysInMonth y m)
    (hm : m < 12) : Date.succ ⟨y, m, day⟩ = ⟨y, m + 1, 1⟩ := by
  simp only [Date.succ]
  rw [if_neg h, if_pos hm]

theorem Date.succ_mk_dec (y : Int) (day : Nat) (h : ¬ day < daysInMonth y 12) :
    Date.succ ⟨y, 12, day⟩ = ⟨y + 1, 1, 1⟩ := by
  simp only [Date.succ]
  rw [if_neg h, if_neg (by omega)]

theorem Date.succ_pred (d : Date) (hv : d.Valid) : d.pred.succ = d := by
  obtain ⟨hm1, hm12, hd1, hd2⟩ := hv
  rcases d with ⟨y, m, day⟩
  simp only at hm1 hm12 hd1 hd2
  by_cases h2 : 2 ≤ day
  · rw [Date.pred_mk_of_two_le y m day h2, Date.succ_mk_of_lt y m (day - 1) (by omega)]
    simp only [Date.mk.injEq, true_and, and_true]
    omega
  · have hday : day = 1 := by omega
    subst hday
    by_cases hm2 : 2 ≤ m
    · rw [Date.pred_mk_month y m hm2]
      have hge := daysInMonth_ge y (m - 1)
      rw [Date.succ_mk_month y (m - 1) (daysInMonth y (m - 1)) (by omega) (by omega)]
      simp only [Date.mk.injEq, true_and, and_true]
      omega
    · have hm' : m = 1 := by omega
      subst hm'
      rw [Date.pred_mk_jan y]
      have h12 := daysInMonth_twelve (y - 1)
      rw [Date.succ_mk_dec (y - 1) 31 (by omega)]
      simp only [Date.mk.injEq, true_and, and_true]
      omega

theorem Date.ltb_irrefl (d : Date) : d.ltb d = false := by
  simp [Date.ltb]

theorem withDay_of_le (dt : Date) (sd : Nat)
    (h1 : 1 ≤ sd) (h2 : sd ≤ daysInMonth dt.year dt.month) :
    dt.withDay sd = some ⟨dt.year, dt.month, sd⟩ := by
  unfold Date.withDay
  rw [if_pos ⟨h1, h2⟩]

theorem withDay_of_gt (dt : Date) (sd : Nat)
    (h : daysInMonth dt.year dt.month < sd) : dt.withDay sd = none := by
  unfold Date.withDay
  rw [if_neg (by omega)]

theorem fromYmdOpt_eq_some (y : Int) (m d : Nat)
    (hm1 : 1 ≤ m) (hm12 : m ≤ 12) (hd1 : 1 ≤ d) (hd2 : d ≤ daysInMonth y m) :
    fromYmdOpt y m d = some ⟨y, m, d⟩ := by
  unfold fromYmdOpt
  rw [if_pos ⟨hm1, hm12, hd1, hd2⟩]

theorem lastDayOfMonthExpr_eq (td : Date) (hm1 : 1 ≤ td.month) (hm12 : td.month ≤ 12) :
    lastDayOfMonthExpr td = some ⟨td.year, td.month, daysInMonth td.year td.month⟩ := by
  rcases td with ⟨y, m, d⟩
  simp only at hm1 hm12
  unfold lastDayOfMonthExpr
  by_cases hm : m = 12
  · subst hm
    have h13 : fromYmdOpt y (12 + 1) 1 = none := by
      unfold fromYmdOpt
      rw [if_neg (by omega)]
    rw [h13]
    have hnext : fromYmdOpt (y + 1) 1 1 = some ⟨y + 1, 1, 1⟩ :=
      fromYmdOpt_eq_some _ _ _ (by omega) (by omega) (by omega)
        (by rw [daysInMonth_one]; omega)
    rw [hnext]
    rw [daysInMonth_twelve]
    simp only [Option.map, Date.pred_mk_jan]
    simp only [Option.some.injEq, Date.mk.injEq, true_and, and_true]
    omega
  · have hfrom : fromYmdOpt y (m + 1) 1 = some ⟨y, m + 1, 1⟩ :=
      fromYmdOpt_eq_some _ _ _ (by omega) (by omega) (by omega)
        (by have := daysInMonth_ge y (m + 1); omega)
    rw [hfrom]
    simp only [Option.map, Date.pred_mk_month y (m + 1) (by omega)]
    simp only [Option.some.injEq, Date.mk.injEq, Nat.add_sub_cancel, true_and, and_true]

theorem clampedStartInMonth_eq (td : Date) (sd : Nat) (hv : td.Valid) (hsd : 1 ≤ sd) :
    clampedStartInMonth td sd = some (clampDay td.year td.month sd) := by
  obtain ⟨hm1, hm12, hd1, hd2⟩ := hv
  unfold clampedStartInMonth
  by_cases h : sd ≤ daysInMonth td.year td.month
  · rw [withDay_of_le td sd hsd h]
    simp only [Option.some.injEq]
    unfold clampDay
    simp only [Date.mk.injEq, true_and, and_true]
    omega
  · push_neg at h
    rw [withDay_of_gt td sd h]
    rw [lastDayOfMonthExpr_eq td hm1 hm12]
    simp only [Option.bind_eq_bind, Option.some_bind]
    rw [if_pos (show daysInMonth td.year td.month < sd by omega)]
    simp only [pure, Option.some.injEq]
    unfold clampDay
    simp only [Date.mk.injEq, true_and, and_true]
    omega

theorem u32cast_bounds (csd : Int) (h1 : 1 ≤ csd) (h31 : csd ≤ 31) :
    1 ≤ u32cast csd ∧ u32cast csd ≤ 31 := by
  unfold u32cast
  omega

theorem prevMonthStartExpr_eq (d : Date) (hm1 : 1 ≤ d.month) (hm12 : d.month ≤ 12) :
    prevMonthStartExpr d = some ⟨(prevYM d.year d.month).1, (prevYM d.year d.month).2, 1⟩ := by
  unfold prevMonthStartExpr prevYM
  by_cases hm : d.month = 1
  · rw [if_pos hm, if_pos hm]
    exact fromYmdOpt_eq_some _ _ _ (by omega) (by omega) (by omega)
      (by rw [daysInMonth_twelve]; omega)
  · rw [if_neg hm, if_neg hm]
    exact fromYmdOpt_eq_some _ _ _ (by omega) (by omega) (by omega)
      (by have := daysInMonth_ge d.year (d.month - 1); omega)

theorem nextMonthStartExpr_eq (d : Date) (hm1 : 1 ≤ d.month) (hm12 : d.month ≤ 12) :
    nextMonthStartExpr d = some ⟨(nextYM d.year d.month).1, (nextYM d.year d.month).2, 1⟩ := by
  unfold nextMonthStartExpr nextYM
  by_cases hm : d.month = 12
  · rw [if_pos hm, if_pos hm]
    exact fromYmdOpt_eq_some _ _ _ (by omega) (by omega) (by omega)
      (by rw [daysInMonth_one]; omega)
  · rw [if_neg hm, if_neg hm]
    exact fromYmdOpt_eq_some _ _ _ (by omega) (by omega) (by omega)
      (by have := daysInMonth_ge d.year (d.month + 1); omega)

theorem prevCycleStartBlock_eq (y : Int) (m sd : Nat)
    (hm1 : 1 ≤ m) (hm12 : m ≤ 12) (hsd1 : 1 ≤ sd) (hsd31 : sd ≤ 31) :
    prevCycleStartBlock ⟨(prevYM y m).1, (prevYM y m).2, 1⟩ (clampDay y m sd) sd
      = some (prevCycleStartCode y m sd) := by
  unfold prevCycleStartBlock prevCycleStartCode
  by_cases hprev : sd ≤ daysInMonth (prevYM y m).1 (prevYM y m).2
  · rw [withDay_of_le ⟨(prevYM y m).1, (prevYM y m).2, 1⟩ sd hsd1
      (by show sd ≤ daysInMonth (prevYM y m).1 (prevYM y m).2; omega)]
    rw [if_pos hprev]
  · push_neg at hprev
    have hsd29 : 29 ≤ sd := by
      have := daysInMonth_ge (prevYM y m).1 (prevYM y m).2
      omega
    have hmin2 : 2 ≤ min sd (daysInMonth y m) := by
      have := daysInMonth_ge y m
      omega
    have hpred : (clampDay y m sd).pred = ⟨y, m, min sd (daysInMonth y m) - 1⟩ := by
      unfold clampDay
      rw [Date.pred_mk_of_two_le _ _ _ hmin2]
    rw [withDay_of_gt ⟨(prevYM y m).1, (prevYM y m).2, 1⟩ sd
      (by show daysInMonth (prevYM y m).1 (prevYM y m).2 < sd; omega)]
    simp only [hpred]
    rw [if_pos (by show min sd (daysInMonth y m) - 1 < sd; omega)]
    rw [if_neg (by omega)]

theorem nextCycleStartBlock_eq (y : Int) (m sd : Nat)
    (_hm1 : 1 ≤ m) (_hm12 : m ≤ 12) (hsd1 : 1 ≤ sd) (hsd31 : sd ≤ 31) :
    nextCycleStartBlock ⟨(nextYM y m).1, (nextYM y m).2, 1⟩ sd
      = some (clampDay (nextYM y m).1 (nextYM y m).2 sd) := by
  unfold nextCycleStartBlock
  by_cases hnext : sd ≤ daysInMonth (nextYM y m).1 (nextYM y m).2
  · rw [withDay_of_le ⟨(nextYM y m).1, (nextYM y m).2, 1⟩ sd hsd1
      (by show sd ≤ daysInMonth (nextYM y m).1 (nextYM y m).2; omega)]
    simp only [Option.some.injEq]
    unfold clampDay
    simp only [Date.mk.injEq, true_and, and_true]
    omega
  · push_neg at hnext
    rw [withDay_of_gt ⟨(nextYM y m).1, (nextYM y m).2, 1⟩ sd
      (by show daysInMonth (nextYM y m).1 (nextYM y m).2 < sd; omega)]
    have hne12 : (nextYM y m).2 ≠ 12 := by
      intro h
      rw [h, daysInMonth_twelve] at hnext
      omega
    rw [if_neg (show ¬ (⟨(nextYM y m).1, (nextYM y m).2, 1⟩ : Date).month = 12 from hne12)]
    have hb1 : 1 ≤ (nextYM y m).2 := by unfold nextYM; split <;> omega
    have hb12 : (nextYM y m).2 ≤ 12 := by unfold nextYM; split <;> omega
    rw [fromYmdOpt_eq_some (nextYM y m).1 ((nextYM y m).2 + 1) 1
      (by omega) (by show (nextYM y m).2 + 1 ≤ 12; omega) (by omega)
      (by have := daysInMonth_ge (nextYM y m).1 ((nextYM y m).2 + 1); omega)]
    simp only [Option.bind_eq_bind, Option.some_bind]
    rw [show Date.pred ⟨(nextYM y m).1, (nextYM y m).2 + 1, 1⟩
      = ⟨(nextYM y m).1, (nextYM y m).2, daysInMonth (nextYM y m).1 (nextYM y m).2⟩ by
        rw [Date.pred_mk_month (nextYM y m).1 ((nextYM y m).2 + 1) (by omega)]
        simp]
    rw [if_pos (by show daysInMonth (nextYM y m).1 (nextYM y m).2 < sd; omega)]
    simp only [Option.some.injEq]
    unfold clampDay
    simp only [Date.mk.injEq, true_and, and_true]
    omega

/-- Normal form of `calculate_current_cycle_dates` for a valid reference date
and a configured start day between 1 and 31: the code never panics and
returns exactly `cycleBoundsOf`. -/
theorem calculate_current_cycle_dates_eq (td : Date) (csd : Int)
    (hv : td.Valid) (h1 : 1 ≤ csd) (h31 : csd ≤ 31) :
    calculate_current_cycle_dates td csd = some (cycleBoundsOf td (u32cast csd)) := by
  obtain ⟨hm1, hm12, hd1, hd2⟩ := hv
  obtain ⟨hsd1, hsd31⟩ := u32cast_bounds csd h1 h31
  simp only [calculate_current_cycle_dates, cycleBoundsOf]
  rw [clampedStartInMonth_eq td (u32cast csd) ⟨hm1, hm12, hd1, hd2⟩ hsd1]
  simp only [Option.bind_eq_bind, Option.some_bind]
  by_cases hlt : td.ltb (clampDay td.year td.month (u32cast csd)) = true
  · simp only [if_pos hlt]
    rw [prevMonthStartExpr_eq (clampDay td.year td.month (u32cast csd))
      (by simpa using hm1) (by simpa using hm12)]
    simp only [Option.some_bind, clampDay_year, clampDay_month]
    rw [prevCycleStartBlock_eq td.year td.month (u32cast csd) hm1 hm12 hsd1 hsd31]
    simp only [Option.bind_eq_bind, Option.some_bind]
    rfl
  · simp only [if_neg hlt]
    rw [nextMonthStartExpr_eq (clampDay td.year td.month (u32cast csd))
      (by simpa using hm1) (by simpa using hm12)]
    simp only [Option.some_bind, clampDay_year, clampDay_month]
    rw [nextCycleStartBlock_eq td.year td.month (u32cast csd) hm1 hm12 hsd1 hsd31]
    simp only [Option.bind_eq_bind, Option.some_bind]
    rfl

/-- Normal form of `calculate_cycle_period` for a valid transaction date and
a start day between 1 and 31. -/
theorem calculate_cycle_period_eq (td : Date) (csd : Int)
    (hv : td.Valid) (h1 : 1 ≤ csd) (h31 : csd ≤ 31) :
    calculate_cycle_period td csd
      = some (periodKeyString (cycleStartOf td (u32cast csd)) csd) := by
  obtain ⟨hm1, hm12, hd1, hd2⟩ := hv
  obtain ⟨hsd1, hsd31⟩ := u32cast_bounds csd h1 h31
  simp only [calculate_cycle_period, cycleStartOf, cycleStartResolve]
  rw [clampedStartInMonth_eq td (u32cast csd) ⟨hm1, hm12, hd1, hd2⟩ hsd1]
  simp only [Option.bind_eq_bind, Option.some_bind]
  by_cases hlt : td.ltb (clampDay td.year td.month (u32cast csd)) = true
  · simp only [if_pos hlt]
    rw [prevMonthStartExpr_eq td hm1 hm12]
    simp only [Option.bind_eq_bind, Option.some_bind]
    rw [prevCycleStartBlock_eq td.year td.month (u32cast csd) hm1 hm12 hsd1 hsd31]
    simp only [Option.bind_eq_bind, Option.some_bind]
    rfl
  · simp only [if_neg hlt]
    rfl

/-- A clamped start date resolves to a cycle that starts at itself. -/
theorem cycleBoundsOf_fst_clampDay (y : Int) (m sd : Nat)
    (_hm1 : 1 ≤ m) (_hm12 : m ≤ 12) (_hsd1 : 1 ≤ sd) :
    (cycleBoundsOf (clampDay y m sd) sd).1 = clampDay y m sd := by
  unfold cycleBoundsOf
  simp only [clampDay_year, clampDay_month]
  rw [if_neg (by rw [Date.ltb_irrefl]; simp)]

/-- C2: for a start day in 1–31, the cycle following the cycle of any valid
reference date starts exactly one day after that cycle ends: no gap, no
overlap. -/
theorem C2_consecutive_cycles_tile (d : Date) (csd : Int)
    (hv : d.Valid) (h1 : 1 ≤ csd) (h31 : csd ≤ 31) :
    ∃ s1 e1 s2 e2,
      calculate_current_cycle_dates d csd = some (s1, e1) ∧
      calculate_current_cycle_dates e1.succ csd = some (s2, e2) ∧
      s2 = e1.succ := by
  obtain ⟨hsd1, hsd31⟩ := u32cast_bounds csd h1 h31
  have hB := calculate_current_cycle_dates_eq d csd hv h1 h31
  obtain ⟨hm1, hm12, hd1, hd2⟩ := hv
  have hkey : ∃ y' m', 1 ≤ m' ∧ m' ≤ 12 ∧
      (cycleBoundsOf d (u32cast csd)).2.succ = clampDay y' m' (u32cast csd) := by
    unfold cycleBoundsOf
    by_cases hlt : d.ltb (clampDay d.year d.month (u32cast csd)) = true
    · rw [if_pos hlt]
      exact ⟨d.year, d.month, hm1, hm12,
        Date.succ_pred _ (clampDay_valid _ _ _ hm1 hm12 hsd1)⟩
    · rw [if_neg hlt]
      have hb1 : 1 ≤ (nextYM d.year d.month).2 := by unfold nextYM; split <;> omega
      have hb12 : (nextYM d.year d.month).2 ≤ 12 := by unfold nextYM; split <;> omega
      exact ⟨(nextYM d.year d.month).1, (nextYM d.year d.month).2, hb1, hb12,
        Date.succ_pred _ (clampDay_valid _ _ _ hb1 hb12 hsd1)⟩
  obtain ⟨y', m', hm'1, hm'12, hsucc⟩ := hkey
  refine ⟨(cycleBoundsOf d (u32cast csd)).1, (cycleBoundsOf d (u32cast csd)).2,
    (cycleBoundsOf (cycleBoundsOf d (u32cast csd)).2.succ (u32cast csd)).1,
    (cycleBoundsOf (cycleBoundsOf d (u32cast csd)).2.succ (u32cast csd)).2, ?_, ?_, ?_⟩
  · rw [hB]
  · have hv2 : ((cycleBoundsOf d (u32cast csd)).2.succ).Valid := by
      rw [hsucc]
      exact clampDay_valid _ _ _ hm'1 hm'12 hsd1
    rw [calculate_current_cycle_dates_eq _ csd hv2 h1 h31]
  · rw [hsucc]
    exact cycleBoundsOf_fst_clampDay y' m' (u32cast csd) hm'1 hm'12 hsd1

/-- C2 witness at a concrete boundary: the cycle of 2023-01-31 with start
day 31 ends 2023-02-27, and the next cycle starts 2023-02-28. -/
theorem C2_consecutive_cycles_tile_witness :
    Date.Valid ⟨2023, 1, 31⟩ ∧ (1 : Int) ≤ 31 ∧ (31 : Int) ≤ 31 ∧
    ∃ s1 e1 s2 e2,
      calculate_current_cycle_dates ⟨2023, 1, 31⟩ 31 = some (s1, e1) ∧
      calculate_current_cycle_dates e1.succ 31 = some (s2, e2) ∧
      s2 = e1.succ :=
  ⟨by decide, by decide, by decide,
    C2_consecutive_cycles_tile ⟨2023, 1, 31⟩ 31 (by decide) (by decide) (by decide)⟩

/-- C9: for any valid date and any start day in 1–31, neither
`calculate_current_cycle_dates` nor `calculate_cycle_period` panics: every
internal unwrap succeeds and a value is returned. -/
theorem C9_no_panic (td : Date) (csd : Int)
    (hv : td.Valid) (h1 : 1 ≤ csd) (h31 : csd ≤ 31) :
    (calculate_current_cycle_dates td csd).isSome = true ∧
    (calculate_cycle_period td csd).isSome = true := by
  rw [calculate_current_cycle_dates_eq td csd hv h1 h31,
    calculate_cycle_period_eq td csd hv h1 h31]
  exact ⟨rfl, rfl⟩

/-- C9 witness on a calendar edge case: day 31 configured, reference in
February of a non-leap year. -/
theorem C9_no_panic_witness :
    Date.Valid ⟨2023, 2, 28⟩ ∧ (1 : Int) ≤ 31 ∧ (31 : Int) ≤ 31 ∧
    ((calculate_current_cycle_dates ⟨2023, 2, 28⟩ 31).isSome = true ∧
      (calculate_cycle_period ⟨2023, 2, 28⟩ 31).isSome = true) :=
  ⟨by decide, by decide, by decide,
    C9_no_panic ⟨2023, 2, 28⟩ 31 (by decide) (by decide) (by decide)⟩

/-- C1 (claim fails on the code): with start day 30 the reference date
2023-03-15 resolves to the cycle (2023-03-29, 2023-03-29), which does not
contain the reference date — the containment guarantee
`cycle_start <= reference_date` is violated. -/
theorem C1_cycle_can_exclude_reference_date :
    calculate_current_cycle_dates ⟨2023, 3, 15⟩ 30
      = some (⟨2023, 3, 29⟩, ⟨2023, 3, 29⟩) ∧
    Date.leb ⟨2023, 3, 29⟩ ⟨2023, 3, 15⟩ = false := by
  constructor
  · decide
  · decide

/-- C3: with start day 31 the reference date 2023-02-15 resolves to the
cycle from 2023-01-31 to 2023-02-27. -/
theorem C3_cycle_of_feb_15_2023_start_31 :
    calculate_current_cycle_dates ⟨2023, 2, 15⟩ 31
      = some (⟨2023, 1, 31⟩, ⟨2023, 2, 27⟩) := by
  decide

/-- C4 (claim fails on the code): 2023-03-15 and 2023-03-30 lie in different
cycles for start day 30, yet `calculate_cycle_period` assigns them the same
period key, so the period key is not strictly monotonic across cycles. -/
theorem C4_period_key_not_strictly_monotonic :
    Date.ltb ⟨2023, 3, 15⟩ ⟨2023, 3, 30⟩ = true ∧
    calculate_current_cycle_dates ⟨2023, 3, 15⟩ 30
      ≠ calculate_current_cycle_dates ⟨2023, 3, 30⟩ 30 ∧
    calculate_cycle_period ⟨2023, 3, 15⟩ 30 = calculate_cycle_period ⟨2023, 3, 30⟩ 30 := by
  refine ⟨by decide, by decide, by decide⟩

/-! ### Claim C7: validation of `cycle_start_day` (`account_book.rs` 240–247) -/

/-- Outcome of the early validation of the `update` handler. -/
inductive UpdateOutcome where
  | rejected (error : String)
  | proceed
deriving DecidableEq, Repr

/-- Embedding of the early validation of the account-book `update` handler
(`account_book.rs` lines 240–247): blank name and out-of-range
`cycle_start_day` are rejected with an error redirect before any database
access.  `name_trim_empty` stands for `form.name.trim().is_empty()`. -/
def update_account_book_validation (name_trim_empty : Bool) (cycle_start_day : Int) :
    UpdateOutcome :=
  if name_trim_empty then
    .rejected "账本名称不能为空"
  else if cycle_start_day < 1 ∨ cycle_start_day > 31 then
    .rejected "月度周期起始日必须在1-31之间"
  else
    .proceed

/-- C7 counterexample: the cycle calculator itself does not fail on an
out-of-range start day — `cycle_start_day = 32` is silently clamped and a
normal cycle is returned, contradicting "fails with an InvalidConfiguration
error before performing any date arithmetic". -/
theorem C7_counterexample_silent_clamp :
    calculate_current_cycle_dates ⟨2023, 5, 15⟩ 32
      = some (⟨2023, 5, 30⟩, ⟨2023, 5, 30⟩) := by
  decide

/-- Embedding of the `cycle_start_day` rule of `AccountBookForm`
(`utils/validator.rs` lines 36–37), `#[validate(range(min = 1, max = 31))]`,
which the `create` handler runs via `form.validate()` before persisting
(`account_book.rs` lines 34–56): the field passes iff it lies in [1,31]. -/
def account_book_form_cycle_start_day_valid (cycle_start_day : Int) : Bool :=
  decide (1 ≤ cycle_start_day ∧ cycle_start_day ≤ 31)

/-- C7 amended: the calculator itself never validates — 32 yields a
silently clamped cycle and 0 panics (`none`); range validation lives in the
form handlers, both of which reject any `cycle_start_day` outside [1,31]
with an error redirect before persisting: the `create` handler through the
`AccountBookForm` range validator and the `update` handler through its
explicit check. -/
theorem C7_validation_in_form_handlers (name_trim_empty : Bool) (csd : Int)
    (hname : name_trim_empty = false) (hout : csd < 1 ∨ csd > 31) :
    account_book_form_cycle_start_day_valid csd = false ∧
    update_account_book_validation name_trim_empty csd
      = .rejected "月度周期起始日必须在1-31之间" ∧
    (calculate_current_cycle_dates ⟨2023, 5, 15⟩ 32).isSome = true ∧
    calculate_current_cycle_dates ⟨2023, 1, 15⟩ 0 = none := by
  refine ⟨?_, ?_, by decide, by decide⟩
  · unfold account_book_form_cycle_start_day_valid
    simp only [decide_eq_false_iff_not]
    omega
  · unfold update_account_book_validation
    rw [if_neg (by rw [hname]; exact Bool.false_ne_true), if_pos hout]

/-- C7 witness: both form validations reject `cycle_start_day = 32`. -/
theorem C7_validation_witness :
    (false = false ∧ ((32 : Int) < 1 ∨ (32 : Int) > 31)) ∧
    (account_book_form_cycle_start_day_valid 32 = false ∧
    update_account_book_validation false 32
      = .rejected "月度周期起始日必须在1-31之间" ∧
    (calculate_current_cycle_dates ⟨2023, 5, 15⟩ 32).isSome = true ∧
    calculate_current_cycle_dates ⟨2023, 1, 15⟩ 0 = none) :=
  ⟨⟨rfl, by decide⟩,
    C7_validation_in_form_handlers false 32 rfl (by decide)⟩

/-! ### Claim C8: explicit date ranges are never compared (`reports`, lines 90–106) -/

/-- A query parameter of the reports page: absent, present but unparseable,
or parsed to a date. -/
inductive RangeParam where
  | missing
  | invalid
  | parsed (d : Date)

/-- Embedding of the date-range selection of the `reports` handler
(`account_book_reports.rs` lines 90–106): when both parameters are present
they are parsed (parse errors redirect) and returned as-is, without any
comparison of the two dates; otherwise the current cycle is derived.
`Except.error` models the error redirect, the outer `Option` a panic. -/
def resolveReportRange (qstart qend : RangeParam) (today : Date)
    (cycle_start_day : Int) : Option (Except String (Date × Date)) :=
  match qstart, qend with
  | .invalid, .invalid => some (.error "起始日期格式错误")
  | .invalid, .parsed _ => some (.error "起始日期格式错误")
  | .parsed _, .invalid => some (.error "结束日期格式错误")
  | .parsed s, .parsed e => some (.ok (s, e))
  | _, _ => (calculate_current_cycle_dates today cycle_start_day).map Except.ok

/-- A transaction row as fetched for the reports:
(transaction_date, type, amount). -/
def TxRow : Type := Date × String × Option ℚ

/-- Model of the SQL condition `transaction_date BETWEEN ? AND ?` applied to
a list of transaction rows. -/
def rowsBetween (s e : Date) (rows : List TxRow) : List TxRow :=
  rows.filter (fun r => s.leb r.1 && r.1.leb e)

/-- C8 counterexample: an explicit range with `end_date < start_date` is
accepted (`Except.ok`), not rejected with any error. -/
theorem C8_counterexample_inverted_range_accepted :
    resolveReportRange (.parsed ⟨2023, 1, 10⟩) (.parsed ⟨2023, 1, 5⟩) ⟨2023, 6, 1⟩ 1
      = some (.ok (⟨2023, 1, 10⟩, ⟨2023, 1, 5⟩)) := rfl

theorem rowsBetween_nil_of_inverted (s e : Date) (hinv : e.ltb s = true)
    (rows : List TxRow) : rowsBetween s e rows = [] := by
  induction rows with
  | nil => rfl
  | cons r rest ih =>
    have hc : (s.leb r.1 && r.1.leb e) = false := by
      rw [Bool.eq_false_iff]
      intro hcontra
      rcases s with ⟨sy, sm, sd⟩
      rcases e with ⟨ey, em, ed⟩
      rcases hr : r.1 with ⟨dy, dm, dd⟩
      rw [hr] at hcontra
      simp only [Date.leb, Date.ltb, Bool.and_eq_true, Bool.or_eq_true,
        decide_eq_true_eq, beq_iff_eq, Date.mk.injEq] at hcontra hinv
      omega
    simp only [rowsBetween, List.filter_cons, hc, Bool.false_eq_true, if_false]
    exact ih

/-- C8 amended: the handler performs no comparison of an explicit range —
an inverted range is accepted and flows into the aggregation, where the
inclusive BETWEEN filter matches no transaction and (for instance) the
average-daily-expense guard yields zero rather than an error. -/
theorem C8_inverted_range_flows_through (s e today : Date) (csd : Int)
    (rows : List TxRow) (hinv : e.ltb s = true) :
    resolveReportRange (.parsed s) (.parsed e) today csd = some (.ok (s, e)) ∧
    rowsBetween s e rows = [] := by
  exact ⟨rfl, rowsBetween_nil_of_inverted s e hinv rows⟩

/-- C8 witness at a concrete inverted range. -/
theorem C8_inverted_range_witness :
    (Date.ltb ⟨2023, 1, 5⟩ ⟨2023, 1, 10⟩ = true) ∧
    (resolveReportRange (.parsed ⟨2023, 1, 10⟩) (.parsed ⟨2023, 1, 5⟩) ⟨2023, 6, 1⟩ 1
        = some (.ok (⟨2023, 1, 10⟩, ⟨2023, 1, 5⟩)) ∧
      rowsBetween ⟨2023, 1, 10⟩ ⟨2023, 1, 5⟩
        [(⟨2023, 1, 7⟩, "expense", some 3)] = []) :=
  ⟨by decide, C8_inverted_range_flows_through ⟨2023, 1, 10⟩ ⟨2023, 1, 5⟩ ⟨2023, 6, 1⟩ 1
    [(⟨2023, 1, 7⟩, "expense", some 3)] (by decide)⟩

/-! ### Claim C6: average daily expense (`reports`, lines 129–135) -/

/-- Days before month `m` within year `y`. -/
def daysBeforeMonth (y : Int) (m : Nat) : Nat :=
  ((List.range (m - 1)).map (fun i => daysInMonth y (i + 1))).sum

/-- Rata-die style day index of a date (model of the absolute day number
underlying `chrono` date subtraction). -/
def toDays (d : Date) : Int :=
  365 * (d.year - 1) + (d.year - 1).fdiv 4 - (d.year - 1).fdiv 100
    + (d.year - 1).fdiv 400 + (daysBeforeMonth d.year d.month : Int) + d.day

/-- Model of `(end_date - start_date).num_days`. -/
def numDaysBetween (start_date end_date : Date) : Int :=
  toDays end_date - toDays start_date

/-- Round a rational to an integer, ties to even (the rounding used by
`rust_decimal::Decimal::round_dp`). -/
def roundHalfEven (q : ℚ) : Int :=
  let f := ⌊q⌋
  let r := q - (f : ℚ)
  if r < 1/2 then f
  else if 1/2 < r then f + 1
  else if f % 2 = 0 then f else f + 1

/-- Model of `Decimal::round_dp(2)`. -/
def round_dp2 (q : ℚ) : ℚ := (roundHalfEven (q * 100) : ℚ) / 100

/-- Embedding of the average-daily-expense computation of the `reports`
handler (`account_book_reports.rs` lines 129–135):
`days_count = (end_date - start_date).num_days`, then
`total_expense / days_count` rounded to two decimals when `days_count > 0`,
and zero otherwise. -/
def average_daily_expense_calc (total_expense : ℚ) (start_date end_date : Date) : ℚ :=
  let days_count : Int := numDaysBetween start_date end_date
  if 0 < days_count then round_dp2 (total_expense / (days_count : ℚ)) else 0

theorem numDaysBetween_ten : numDaysBetween ⟨2023, 1, 1⟩ ⟨2023, 1, 10⟩ = 9 := by
  decide

/-- Shared evaluation: the code's average over the 10-day inclusive range
with total 55.555 is 6.17 (division by the exclusive difference 9). -/
theorem average_ten_day_eq :
    average_daily_expense_calc (55555/1000) ⟨2023, 1, 1⟩ ⟨2023, 1, 10⟩ = 617/100 := by
  have hfloor : ⌊(55555/1000 / ((9 : Int) : ℚ)) * 100⌋ = 617 := by
    rw [Int.floor_eq_iff]
    constructor <;> norm_num
  simp only [average_daily_expense_calc, numDaysBetween_ten]
  rw [if_pos (by norm_num)]
  simp only [round_dp2, roundHalfEven, hfloor]
  norm_num

theorem average_one_day_eq :
    average_daily_expense_calc 100 ⟨2023, 1, 5⟩ ⟨2023, 1, 5⟩ = 0 := by
  have h0 : numDaysBetween ⟨2023, 1, 5⟩ ⟨2023, 1, 5⟩ = 0 := by decide
  simp only [average_daily_expense_calc, h0]
  norm_num

/-- C6 counterexample: over the 10-day inclusive range 2023-01-01 to
2023-01-10 with total expense 55.555, the code divides by 9 (the exclusive
day difference) and yields 6.17 — not the 5.56 the claim requires from
dividing by max(1, 10). -/
theorem C6_counterexample_ten_day_range :
    average_daily_expense_calc (55555/1000) ⟨2023, 1, 1⟩ ⟨2023, 1, 10⟩ = 617/100 ∧
    (617/100 : ℚ) ≠ 556/100 := by
  exact ⟨average_ten_day_eq, by norm_num⟩

/-- C6 amended: the divisor is the exclusive day difference
`(end_date - start_date).num_days`, not max(1, inclusive days): the average
is `round_dp2 (total / days_count)` when `days_count > 0` and `0` otherwise —
in particular a one-day range yields 0, and the spec's 10-day example yields
6.17. -/
theorem C6_average_daily_expense_amended (total : ℚ) (s e : Date) :
    (0 < numDaysBetween s e →
      average_daily_expense_calc total s e
        = round_dp2 (total / (numDaysBetween s e : ℚ))) ∧
    (numDaysBetween s e ≤ 0 → average_daily_expense_calc total s e = 0) ∧
    average_daily_expense_calc (55555/1000) ⟨2023, 1, 1⟩ ⟨2023, 1, 10⟩ = 617/100 ∧
    average_daily_expense_calc 100 ⟨2023, 1, 5⟩ ⟨2023, 1, 5⟩ = 0 := by
  refine ⟨?_, ?_, average_ten_day_eq, average_one_day_eq⟩
  · intro h
    unfold average_daily_expense_calc
    rw [if_pos h]
  · intro h
    unfold average_daily_expense_calc
    rw [if_neg (by omega)]

/-- C6 witness: the amended formula evaluated over the concrete 10-day
range. -/
theorem C6_average_daily_expense_witness :
    (0 : Int) < numDaysBetween ⟨2023, 1, 1⟩ ⟨2023, 1, 10⟩ ∧
    average_daily_expense_calc (55555/1000) ⟨2023, 1, 1⟩ ⟨2023, 1, 10⟩
      = round_dp2 ((55555/1000 : ℚ) / (numDaysBetween ⟨2023, 1, 1⟩ ⟨2023, 1, 10⟩ : ℚ)) :=
  ⟨by decide,
    (C6_average_daily_expense_amended (55555/1000) ⟨2023, 1, 1⟩ ⟨2023, 1, 10⟩).1 (by decide)⟩

/-! ### Claim C5: category statistics (`get_category_stats`, lines 220–274) -/

/-- One row of the SQL aggregate
`SELECT c.name, SUM(t.amount), COUNT(t.id), c.color ... GROUP BY c.id`:
a category of the requested ledger with its total over the date range
(`none` models a NULL sum, i.e. a category with no matching transaction). -/
structure CatRow where
  name : String
  ctype : String
  total_amount : Option ℚ
  transaction_count : Int
  color : Option String
deriving DecidableEq, Repr

/-- Stable descending insertion by `total_amount` (model of
`ORDER BY total_amount DESC`). -/
def catInsertDesc (r : CatRow) : List CatRow → List CatRow
  | [] => [r]
  | x :: xs =>
    if x.total_amount.getD 0 < r.total_amount.getD 0 then r :: x :: xs
    else x :: catInsertDesc r xs

def catSortDesc (rows : List CatRow) : List CatRow :=
  rows.foldl (fun acc r => catInsertDesc r acc) []

/-- The rows the SQL of `get_category_stats` hands to the Rust code:
categories of the requested type, `HAVING total_amount > 0` (a NULL sum
fails the comparison), `ORDER BY total_amount DESC`, `LIMIT 10`. -/
def catSqlRows (category_type : String) (rows : List CatRow) : List CatRow :=
  (catSortDesc ((rows.filter (fun r => r.ctype == category_type)).filter
    (fun r => match r.total_amount with
      | some a => decide (0 < a)
      | none => false))).take 10

/-- Output row of `get_category_stats`. -/
structure CategoryStat where
  name : String
  amount : ℚ
  percentage : Int
  color : String
  transaction_count : Int
deriving DecidableEq, Repr

/-- Rounding of `f64::round` (half away from zero), applied by the code to
`(amount / total * 100)`. -/
def roundHalfAwayFromZero (q : ℚ) : Int :=
  if q < 0 then -⌊-q + 1/2⌋ else ⌊q + 1/2⌋

/-- Embedding of `get_category_stats` (`account_book_reports.rs` lines
220–274): `total` is the sum over the fetched (top-10) rows only, and each
percentage is `round(amount / total * 100)` against that total, `0` when the
total is not positive. -/
def get_category_stats (category_type : String) (rows : List CatRow) :
    List CategoryStat :=
  let fetched := catSqlRows category_type rows
  let total : ℚ := (fetched.map (fun r => r.total_amount.getD 0)).sum
  fetched.map (fun r =>
    let amount := r.total_amount.getD 0
    let percentage : Int :=
      if 0 < total then roundHalfAwayFromZero (amount / total * 100) else 0
    { name := r.name, amount := amount, percentage := percentage,
      color := r.color.getD "#007bff", transaction_count := r.transaction_count })

/-- An expense category aggregate row with one transaction and no color. -/
def catRow (n : String) (q : ℚ) : CatRow := ⟨n, "expense", some q, 1, none⟩

/-- Eleven positive expense categories: ten with total 100, one with 99. -/
def rows11 : List CatRow :=
  [catRow "c01" 100, catRow "c02" 100, catRow "c03" 100, catRow "c04" 100,
   catRow "c05" 100, catRow "c06" 100, catRow "c07" 100, catRow "c08" 100,
   catRow "c09" 100, catRow "c10" 100, catRow "c11" 99]

theorem catSqlRows_rows11 :
    catSqlRows "expense" rows11
      = [catRow "c01" 100, catRow "c02" 100, catRow "c03" 100, catRow "c04" 100,
         catRow "c05" 100, catRow "c06" 100, catRow "c07" 100, catRow "c08" 100,
         catRow "c09" 100, catRow "c10" 100] := by
  norm_num [catSqlRows, catSortDesc, catInsertDesc, rows11, catRow]

/-- C5 counterexample: with eleven positive categories the denominator used
by the code is the sum over the ten emitted rows (1000), not the sum over
all categories of the type (1099): the top category is reported as 10%,
while the claim's formula gives round(100 / 1099 * 100) = 9. -/
theorem C5_counterexample_denominator :
    ((get_category_stats "expense" rows11).map (fun st => st.percentage)).head?
      = some 10 ∧
    (get_category_stats "expense" rows11).length = 10 ∧
    ((rows11.map (fun r => r.total_amount.getD 0)).sum = 1099 ∧
      roundHalfAwayFromZero ((100 : ℚ) / 1099 * 100) = 9) := by
  refine ⟨?_, ?_, ?_, ?_⟩
  · simp only [get_category_stats, catSqlRows_rows11]
    have htotal :
        (([catRow "c01" 100, catRow "c02" 100, catRow "c03" 100, catRow "c04" 100,
           catRow "c05" 100, catRow "c06" 100, catRow "c07" 100, catRow "c08" 100,
           catRow "c09" 100, catRow "c10" 100].map
            (fun r => r.total_amount.getD 0)).sum : ℚ) = 1000 := by
      norm_num [catRow]
    rw [htotal]
    have hround : roundHalfAwayFromZero ((100 : ℚ) / 1000 * 100) = 10 := by
      unfold roundHalfAwayFromZero
      rw [if_neg (by norm_num), Int.floor_eq_iff]
      constructor <;> norm_num
    simp [catRow, hround]
  · simp only [get_category_stats, catSqlRows_rows11]
    simp
  · norm_num [rows11, catRow]
  · unfold roundHalfAwayFromZero
    rw [if_neg (by norm_num), Int.floor_eq_iff]
    constructor <;> norm_num

/-- C5 amended: at most ten categories are emitted, and each emitted
percentage is `round(amount / total * 100)` where `total` is the sum of the
emitted (top-10, positive) rows only — with the concrete two-category check
A = 300, B = 100 giving 75% and 25%. -/
theorem C5_percentages_amended (category_type : String) (rows : List CatRow) :
    (get_category_stats category_type rows).length ≤ 10 ∧
    (∀ st ∈ get_category_stats category_type rows,
      st.percentage =
        if 0 < ((catSqlRows category_type rows).map (fun r => r.total_amount.getD 0)).sum
        then roundHalfAwayFromZero (st.amount /
          ((catSqlRows category_type rows).map (fun r => r.total_amount.getD 0)).sum * 100)
        else 0) ∧
    (get_category_stats "expense" [catRow "A" 300, catRow "B" 100]).map
      (fun st => (st.name, st.percentage)) = [("A", 75), ("B", 25)] := by
  refine ⟨?_, ?_, ?_⟩
  · simp only [get_category_stats, List.length_map, catSqlRows, List.length_take]
    omega
  · intro st hst
    simp only [get_category_stats, List.mem_map] at hst
    obtain ⟨r, hr, rfl⟩ := hst
    rfl
  · have hsql : catSqlRows "expense" [catRow "A" 300, catRow "B" 100]
        = [catRow "A" 300, catRow "B" 100] := by
      norm_num [catSqlRows, catSortDesc, catInsertDesc, catRow]
    simp only [get_category_stats, hsql]
    have htotal : (([catRow "A" 300, catRow "B" 100].map
        (fun r => r.total_amount.getD 0)).sum : ℚ) = 400 := by
      norm_num [catRow]
    rw [htotal]
    have h75 : roundHalfAwayFromZero ((300 : ℚ) / 400 * 100) = 75 := by
      unfold roundHalfAwayFromZero
      rw [if_neg (by norm_num), Int.floor_eq_iff]
      constructor <;> norm_num
    have h25 : roundHalfAwayFromZero ((100 : ℚ) / 400 * 100) = 25 := by
      unfold roundHalfAwayFromZero
      rw [if_neg (by norm_num), Int.floor_eq_iff]
      constructor <;> norm_num
    simp [catRow, h75, h25]

/-- C5 witness: the amended percentage formula at the concrete A/B input. -/
theorem C5_percentages_witness :
    (get_category_stats "expense" [catRow "A" 300, catRow "B" 100]).map
      (fun st => (st.name, st.percentage)) = [("A", 75), ("B", 25)] :=
  (C5_percentages_amended "expense" [catRow "A" 300, catRow "B" 100]).2.2

/-! ### Claim C10: per-cycle buckets (`get_monthly_details` 340–354,
`get_monthly_trends` 194–207) -/

/-- Lookup in an association list keyed by period strings (observation
function for the `BTreeMap` model). -/
def bucketFind {V : Type} : List (String × V) → String → Option V
  | [], _ => none
  | (k', v) :: rest, k => if k = k' then some v else bucketFind rest k

/-- Model of `map.entry(k).or_insert(init)` followed by mutating the entry
with `f`, on a key-sorted association list (the `BTreeMap` representation). -/
def bucketUpdate {V : Type} (m : List (String × V)) (k : String) (init : V)
    (f : V → V) : List (String × V) :=
  match m with
  | [] => [(k, f init)]
  | (k', v) :: rest =>
    if k = k' then (k', f v) :: rest
    else if k < k' then (k, f init) :: (k', v) :: rest
    else (k', v) :: bucketUpdate rest k init f

theorem bucketFind_eq_none_of_forall_lt {V : Type} (rest : List (String × V))
    (k : String) (h : ∀ y ∈ rest, k < y.1) : bucketFind rest k = none := by
  induction rest with
  | nil => rfl
  | cons x xs ih =>
    have hx := h x (by simp)
    have hne : k ≠ x.1 := ne_of_lt hx
    obtain ⟨k', v⟩ := x
    simp only [bucketFind]
    rw [if_neg hne]
    exact ih (fun y hy => h y (by simp [hy]))

theorem bucketFind_bucketUpdate {V : Type} (m : List (String × V)) (k : String)
    (init : V) (f : V → V) (hs : List.Pairwise (fun a b => a.1 < b.1) m) :
    bucketFind (bucketUpdate m k init f) k = some (f ((bucketFind m k).getD init)) := by
  induction m with
  | nil => simp [bucketUpdate, bucketFind]
  | cons x rest ih =>
    obtain ⟨k', v⟩ := x
    rw [List.pairwise_cons] at hs
    obtain ⟨hhead, htail⟩ := hs
    by_cases he : k = k'
    · subst he
      simp [bucketUpdate, bucketFind]
    · by_cases hlt : k < k'
      · have hnone : bucketFind rest k = none :=
          bucketFind_eq_none_of_forall_lt rest k (fun y hy => lt_trans hlt (hhead y hy))
        simp [bucketUpdate, bucketFind, he, hlt, hnone]
      · simp [bucketUpdate, bucketFind, he, hlt, ih htail]

/-- One iteration of the aggregation loop of `get_monthly_details`
(`account_book_reports.rs` lines 340–354): resolve the row's cycle period,
add the amount to the income or expense sum according to the row type
(anything else changes neither sum), and increment the transaction count. -/
def detailsFoldStep (cycle_start_day : Int) (m : List (String × (ℚ × ℚ × Int)))
    (row : TxRow) : Option (List (String × (ℚ × ℚ × Int))) := do
  let amount := row.2.2.getD 0
  let cycle_period ← calculate_cycle_period row.1 cycle_start_day
  pure (bucketUpdate m cycle_period (0, 0, 0) (fun entry =>
    let entry2 :=
      if row.2.1 == "income" then (entry.1 + amount, entry.2.1, entry.2.2)
      else if row.2.1 == "expense" then (entry.1, entry.2.1 + amount, entry.2.2)
      else entry
    (entry2.1, entry2.2.1, entry2.2.2 + 1)))

/-- One iteration of the aggregation loop of `get_monthly_trends`
(`account_book_reports.rs` lines 194–207): like `detailsFoldStep` but with
no transaction count. -/
def trendsFoldStep (cycle_start_day : Int) (m : List (String × (ℚ × ℚ)))
    (row : TxRow) : Option (List (String × (ℚ × ℚ))) := do
  let amount := row.2.2.getD 0
  let cycle_period ← calculate_cycle_period row.1 cycle_start_day
  pure (bucketUpdate m cycle_period (0, 0) (fun entry =>
    if row.2.1 == "income" then (entry.1 + amount, entry.2)
    else if row.2.1 == "expense" then (entry.1, entry.2 + amount)
    else entry))

/-- Output row of `get_monthly_trends`. -/
structure MonthlyTrend where
  month : String
  income : ℚ
  expense : ℚ
deriving DecidableEq, Repr

/-- Output row of `get_monthly_details`. -/
structure MonthlyDetail where
  date : String
  income : ℚ
  expense : ℚ
  balance : ℚ
  is_positive_balance : Bool
  transaction_count : Int
deriving DecidableEq, Repr

/-- Embedding of `get_monthly_trends` (lines 164–217) on already-fetched
rows. -/
def get_monthly_trends (rows : List TxRow) (cycle_start_day : Int) :
    Option (List MonthlyTrend) := do
  let m ← rows.foldlM (trendsFoldStep cycle_start_day) []
  pure (m.map (fun e => { month := e.1, income := e.2.1, expense := e.2.2 }))

/-- Embedding of `get_monthly_details` (lines 310–372) on already-fetched
rows. -/
def get_monthly_details (rows : List TxRow) (cycle_start_day : Int) :
    Option (List MonthlyDetail) := do
  let m ← rows.foldlM (detailsFoldStep cycle_start_day) []
  pure (m.map (fun e =>
    { date := e.1, income := e.2.1, expense := e.2.2.1,
      balance := e.2.1 - e.2.2.1,
      is_positive_balance := decide ((0 : ℚ) ≤ e.2.1 - e.2.2.1),
      transaction_count := e.2.2.2 }))

/-- C10: a row whose type is neither "income" nor "expense" still creates
its cycle's bucket; in the details fold it increments that bucket's
transaction count by one while leaving both sums unchanged, and in the
trends fold it leaves the bucket's sums unchanged. -/
theorem C10_unknown_type_row (csd : Int) (td : Date) (ty : String) (amt : Option ℚ)
    (p : String) (m : List (String × (ℚ × ℚ × Int))) (mt : List (String × (ℚ × ℚ)))
    (hm : List.Pairwise (fun a b => a.1 < b.1) m)
    (hmt : List.Pairwise (fun a b => a.1 < b.1) mt)
    (hp : calculate_cycle_period td csd = some p)
    (h1 : ty ≠ "income") (h2 : ty ≠ "expense") :
    (∃ m', detailsFoldStep csd m (td, ty, amt) = some m' ∧
      bucketFind m' p = some (((bucketFind m p).getD (0, 0, 0)).1,
        ((bucketFind m p).getD (0, 0, 0)).2.1,
        ((bucketFind m p).getD (0, 0, 0)).2.2 + 1)) ∧
    (∃ mt', trendsFoldStep csd mt (td, ty, amt) = some mt' ∧
      bucketFind mt' p = some ((bucketFind mt p).getD (0, 0))) := by
  have hinc : (ty == "income") = false := by
    rw [beq_eq_false_iff_ne]
    exact h1
  have hexp : (ty == "expense") = false := by
    rw [beq_eq_false_iff_ne]
    exact h2
  have hd : detailsFoldStep csd m (td, ty, amt)
      = some (bucketUpdate m p (0, 0, 0) (fun entry =>
          (entry.1, entry.2.1, entry.2.2 + 1))) := by
    simp only [detailsFoldStep, hp, Option.bind_eq_bind, Option.some_bind, hinc, hexp,
      Bool.false_eq_true, if_false]
    rfl
  have ht : trendsFoldStep csd mt (td, ty, amt)
      = some (bucketUpdate mt p (0, 0) (fun entry => entry)) := by
    simp only [trendsFoldStep, hp, Option.bind_eq_bind, Option.some_bind, hinc, hexp,
      Bool.false_eq_true, if_false]
    rfl
  constructor
  · refine ⟨_, hd, ?_⟩
    rw [bucketFind_bucketUpdate m p (0, 0, 0) _ hm]
  · refine ⟨_, ht, ?_⟩
    rw [bucketFind_bucketUpdate mt p (0, 0) _ hmt]

/-- C10 witness: a "transfer" row with amount 7 lands in a fresh bucket of
its cycle with sums 0 and count 1 (details) / sums 0 (trends). -/
theorem C10_unknown_type_witness :
    (∃ m', detailsFoldStep 5 [("2023-04 (5日起)", (1, 2, 3))]
        (⟨2023, 5, 10⟩, "transfer", some 7) = some m' ∧
      bucketFind m' "2023-05 (5日起)"
        = some (((bucketFind [("2023-04 (5日起)", ((1 : ℚ), (2 : ℚ), (3 : Int)))]
            "2023-05 (5日起)").getD (0, 0, 0)).1,
          ((bucketFind [("2023-04 (5日起)", ((1 : ℚ), (2 : ℚ), (3 : Int)))]
            "2023-05 (5日起)").getD (0, 0, 0)).2.1,
          ((bucketFind [("2023-04 (5日起)", ((1 : ℚ), (2 : ℚ), (3 : Int)))]
            "2023-05 (5日起)").getD (0, 0, 0)).2.2 + 1)) ∧
    (∃ mt', trendsFoldStep 5 [] (⟨2023, 5, 10⟩, "transfer", some 7) = some mt' ∧
      bucketFind mt' "2023-05 (5日起)"
        = some ((bucketFind ([] : List (String × (ℚ × ℚ))) "2023-05 (5日起)").getD (0, 0))) :=
  C10_unknown_type_row 5 ⟨2023, 5, 10⟩ "transfer" (some 7) "2023-05 (5日起)"
    [("2023-04 (5日起)", (1, 2, 3))] [] (by simp) (by simp) (by decide)
    (by decide) (by decide)

end AccountingSystem
